import Mathlib

/-!
Shallow embedding of the blog platform's in-memory store and service layer
(src/blog_api/database.py and src/blog_api/services.py).

Modelling conventions:
* Python strings are lists of characters (`Str`); the string operations used
  by the code (lower-casing, substring test, the slugify regexes) are defined
  below over the ASCII range that the code's data exercises.
* Python dicts keyed by the auto-increment id are association lists in
  insertion order (Python dicts iterate in insertion order; deletion keeps
  the order of the remaining entries).
* Calls to datetime.now() are modelled by a strictly increasing clock field
  in the store state: each timestamping operation reads the clock and
  advances it, so later timestamps are larger.
* Records are values, which matches Python dict.copy() for all fields that
  hold immutable payloads (ints, strings, bools, None, datetime).  The one
  place where Python's reference semantics is observable - the tags list
  nested inside a post dict, which dict.copy() shares rather than copies -
  is modelled separately at the end by RefDB, a heap-passing model of the
  same create/read code.
-/

set_option maxRecDepth 4000

namespace BlogApi

abbrev Str := List Char

/-- Python str.lower on the ASCII range (database.py lines 119, 196, 199-200). -/
def pyLower (c : Char) : Char := c.toLower

def lowerStr (s : Str) : Str := s.map pyLower

/-- Python regex word character (ASCII range): alphanumeric or underscore. -/
def isWordChar (c : Char) : Bool := c.isAlphanum || c == '_'

/-- Python regex whitespace class. -/
def isPySpace (c : Char) : Bool :=
  c == ' ' || c == '\t' || c == '\n' || c == '\r' || c == '\x0b' || c == '\x0c'

/-- A separator for the collapse step of slugify: hyphen or whitespace. -/
def isSep (c : Char) : Bool := c == '-' || isPySpace c

/-- re.sub of one or more separators by a single hyphen (database.py line 121).
The Bool argument records whether we are inside a separator run. -/
def collapseSeps : List Char → Bool → List Char
  | [], _ => []
  | c :: rest, inRun =>
    if isSep c then
      if inRun then collapseSeps rest true
      else '-' :: collapseSeps rest true
    else c :: collapseSeps rest false

/-- Python str.strip applied with a hyphen argument (database.py line 122). -/
def stripHyphens (s : Str) : Str :=
  ((s.dropWhile (fun c => c == '-')).reverse.dropWhile (fun c => c == '-')).reverse

/-- BlogDatabase._slugify (database.py lines 117-122): lower-case, drop
characters that are not word characters, whitespace or hyphens, collapse
runs of whitespace or hyphens to one hyphen, trim hyphens at both ends. -/
def slugify (text : Str) : Str :=
  stripHyphens
    (collapseSeps
      ((lowerStr text).filter (fun c => isWordChar c || isPySpace c || c == '-'))
      false)

/-- Python list-membership test for a prefix: first argument is a prefix of
the second. -/
def isPre : Str → Str → Bool
  | [], _ => true
  | _ :: _, [] => false
  | a :: as, b :: bs => a == b && isPre as bs

/-- Python substring containment, sub appearing inside hay. -/
def containsSub : Str → Str → Bool
  | [], sub => sub.isEmpty
  | c :: t, sub => isPre sub (c :: t) || containsSub t sub

/-! ### Records stored in the database -/

structure UserRec where
  id : Nat
  username : Str
  email : Str
  full_name : Option Str
  created_at : Nat
  is_active : Bool
deriving DecidableEq, Repr

structure TagRec where
  id : Nat
  name : Str
  slug : Str
deriving DecidableEq, Repr

structure PostRec where
  id : Nat
  title : Str
  content : Str
  author_id : Nat
  created_at : Nat
  updated_at : Option Nat
  published : Bool
  tags : List Nat
  view_count : Nat
deriving DecidableEq, Repr

structure CommentRec where
  id : Nat
  post_id : Nat
  author_id : Nat
  content : Str
  created_at : Nat
  updated_at : Option Nat
deriving DecidableEq, Repr

/-- Association-list lookup: the first entry with the given key, mirroring a
Python dict access. -/
def alookup {A : Type} : List (Nat × A) → Nat → Option A
  | [], _ => none
  | e :: m, k => if e.1 = k then some e.2 else alookup m k

/-- dict.values() in insertion order. -/
def valuesOf {A : Type} (m : List (Nat × A)) : List A := m.map Prod.snd

/-- Overwrite the value stored at a key, mirroring in-place mutation of
posts[id] (used by update_post and increment_view_count). -/
def setPost (m : List (Nat × PostRec)) (pid : Nat) (p : PostRec) :
    List (Nat × PostRec) :=
  m.map (fun e => if e.1 = pid then (pid, p) else e)

/-- BlogDatabase state (database.py lines 22-42): one dict and one counter
per entity kind, plus the clock standing for datetime.now(). -/
structure DB where
  users : List (Nat × UserRec)
  posts : List (Nat × PostRec)
  comments : List (Nat × CommentRec)
  tags : List (Nat × TagRec)
  user_counter : Nat
  post_counter : Nat
  comment_counter : Nat
  tag_counter : Nat
  clock : Nat
deriving DecidableEq, Repr

/-! ### Store operations (database.py) -/

structure UserCreateData where
  username : Str
  email : Str
  full_name : Option Str
deriving DecidableEq, Repr

/-- BlogDatabase.create_user (lines 65-78). -/
def DB.create_user (s : DB) (d : UserCreateData) : UserRec × DB :=
  let uid := s.user_counter + 1
  let u : UserRec := ⟨uid, d.username, d.email, d.full_name, s.clock, true⟩
  (u, { s with users := s.users ++ [(uid, u)], user_counter := uid,
               clock := s.clock + 1 })

/-- BlogDatabase.get_user (lines 80-82). -/
def DB.get_user (s : DB) (uid : Nat) : Option UserRec := alookup s.users uid

/-- BlogDatabase.get_user_by_username (lines 84-89): first user, in insertion
order, whose username matches exactly. -/
def DB.get_user_by_username (s : DB) (name : Str) : Option UserRec :=
  match s.users.find? (fun e => e.2.username == name) with
  | some e => some e.2
  | none => none

/-- BlogDatabase.create_tag (lines 96-107); it takes no timestamp. -/
def DB.create_tag (s : DB) (name : Str) : TagRec × DB :=
  let tid := s.tag_counter + 1
  let t : TagRec := ⟨tid, name, slugify name⟩
  (t, { s with tags := s.tags ++ [(tid, t)], tag_counter := tid })

/-- BlogDatabase.get_tag (lines 109-111). -/
def DB.get_tag (s : DB) (tid : Nat) : Option TagRec := alookup s.tags tid

structure PostCreateData where
  title : Str
  content : Str
  author_id : Nat
  published : Bool
  tags : List Nat
deriving DecidableEq, Repr

/-- BlogPostCreate defaults (models.py lines 119-125): published false and
tags empty when the caller does not supply them. -/
def mkPostCreate (title content : Str) (author_id : Nat) : PostCreateData :=
  ⟨title, content, author_id, false, []⟩

/-- BlogDatabase.create_post (lines 125-141): fresh id, creation stamp,
updated_at null, view_count 0. -/
def DB.create_post (s : DB) (d : PostCreateData) : PostRec × DB :=
  let pid := s.post_counter + 1
  let p : PostRec :=
    ⟨pid, d.title, d.content, d.author_id, s.clock, none, d.published, d.tags, 0⟩
  (p, { s with posts := s.posts ++ [(pid, p)], post_counter := pid,
               clock := s.clock + 1 })

/-- BlogDatabase.get_post (lines 143-145). -/
def DB.get_post (s : DB) (pid : Nat) : Option PostRec := alookup s.posts pid

/-- BlogPostUpdate (models.py lines 128-133): every field optional, no id
field, so the id can never be overwritten. -/
structure PostUpdateData where
  title : Option Str
  content : Option Str
  published : Option Bool
  tags : Option (List Nat)
deriving DecidableEq, Repr

/-- The field-overwrite loop of BlogDatabase.update_post (lines 154-158):
non-null fields overwrite, null fields are kept, updated_at is stamped. -/
def applyUpdate (p : PostRec) (u : PostUpdateData) (now : Nat) : PostRec :=
  { p with
    title := u.title.getD p.title
    content := u.content.getD p.content
    published := u.published.getD p.published
    tags := u.tags.getD p.tags
    updated_at := some now }

/-- BlogDatabase.update_post (lines 147-159). -/
def DB.update_post (s : DB) (pid : Nat) (u : PostUpdateData) :
    Option PostRec × DB :=
  match alookup s.posts pid with
  | none => (none, s)
  | some p =>
    let p2 := applyUpdate p u s.clock
    (some p2, { s with posts := setPost s.posts pid p2, clock := s.clock + 1 })

/-- BlogDatabase.delete_post (lines 161-169) together with
_delete_comments_for_post (lines 237-245): remove the post and every comment
whose post_id matches. -/
def DB.delete_post (s : DB) (pid : Nat) : Bool × DB :=
  if (alookup s.posts pid).isSome then
    (true, { s with
      posts := s.posts.filter (fun e => e.1 != pid)
      comments := s.comments.filter (fun e => e.2.post_id != pid) })
  else (false, s)

/-- Comparator for sorted(..., reverse true) on the creation stamp: a stable
sort into descending creation order. -/
def createdDesc (a b : PostRec) : Bool := decide (b.created_at ≤ a.created_at)

/-- BlogDatabase.get_all_posts (lines 171-176). -/
def DB.get_all_posts (s : DB) (published_only : Bool) : List PostRec :=
  let ps := valuesOf s.posts
  let ps := if published_only then ps.filter (fun p => p.published) else ps
  ps.mergeSort createdDesc

/-- BlogDatabase.increment_view_count (lines 186-192). -/
def DB.increment_view_count (s : DB) (pid : Nat) : Bool × DB :=
  match alookup s.posts pid with
  | none => (false, s)
  | some p =>
    (true, { s with
      posts := setPost s.posts pid { p with view_count := p.view_count + 1 } })

/-- The match test of BlogDatabase.search_posts (lines 199-200): the query,
lower-cased, occurs in the lower-cased title or content. -/
def matchesQuery (q : Str) (p : PostRec) : Bool :=
  containsSub (lowerStr p.title) (lowerStr q) ||
    containsSub (lowerStr p.content) (lowerStr q)

/-- BlogDatabase.search_posts (lines 194-202). -/
def DB.search_posts (s : DB) (q : Str) : List PostRec :=
  ((valuesOf s.posts).filter (matchesQuery q)).mergeSort createdDesc

structure CommentCreateData where
  post_id : Nat
  author_id : Nat
  content : Str
deriving DecidableEq, Repr

/-- BlogDatabase.create_comment (lines 205-218). -/
def DB.create_comment (s : DB) (d : CommentCreateData) : CommentRec × DB :=
  let cid := s.comment_counter + 1
  let c : CommentRec := ⟨cid, d.post_id, d.author_id, d.content, s.clock, none⟩
  (c, { s with comments := s.comments ++ [(cid, c)], comment_counter := cid,
               clock := s.clock + 1 })

/-- BlogDatabase.get_comment (lines 220-222). -/
def DB.get_comment (s : DB) (cid : Nat) : Option CommentRec :=
  alookup s.comments cid

/-- Comparator for sorted(...) on the creation stamp, ascending. -/
def createdAsc (a b : CommentRec) : Bool := decide (a.created_at ≤ b.created_at)

/-- BlogDatabase.get_comments_for_post (lines 224-227). -/
def DB.get_comments_for_post (s : DB) (pid : Nat) : List CommentRec :=
  ((valuesOf s.comments).filter (fun c => c.post_id == pid)).mergeSort createdAsc

/-- BlogDatabase.get_comment_count_for_post (lines 247-249). -/
def DB.get_comment_count_for_post (s : DB) (pid : Nat) : Nat :=
  ((valuesOf s.comments).filter (fun c => c.post_id == pid)).length

/-! ### Service layer (services.py) -/

/-- The distinct failure conditions the service layer raises (services.py
lines 38, 116, 120, 160, 247, 251). -/
inductive SvcErr where
  | usernameExists
  | authorMissing
  | invalidTags
  | postMissing
deriving DecidableEq, Repr

namespace UserService

/-- UserService.create_user (services.py lines 21-41): conflict when the
username already exists, otherwise delegate to the store. -/
def create_user (s : DB) (d : UserCreateData) : Except SvcErr UserRec × DB :=
  match s.get_user_by_username d.username with
  | some _ => (.error .usernameExists, s)
  | none =>
    let r := s.create_user d
    (.ok r.1, r.2)

/-- UserService.user_exists (services.py lines 54-57). -/
def user_exists (s : DB) (uid : Nat) : Bool := (s.get_user uid).isSome

end UserService

namespace TagService

/-- TagService.validate_tag_ids (services.py lines 88-94): every id must
resolve to an existing tag. -/
def validate_tag_ids (s : DB) (ids : List Nat) : Bool :=
  ids.all (fun tid => (DB.get_tag s tid).isSome)

end TagService

namespace BlogPostService

/-- BlogPostService.create_post (services.py lines 100-123): author must
exist; when a non-empty tag list is supplied every tag must exist. -/
def create_post (s : DB) (d : PostCreateData) : Except SvcErr PostRec × DB :=
  if !(UserService.user_exists s d.author_id) then
    (.error .authorMissing, s)
  else if !d.tags.isEmpty && !(TagService.validate_tag_ids s d.tags) then
    (.error .invalidTags, s)
  else
    let r := s.create_post d
    (.ok r.1, r.2)

/-- BlogPostService.get_post (services.py lines 125-141): optionally bump the
view counter, then read. -/
def get_post (s : DB) (pid : Nat) (increment_views : Bool) :
    Option PostRec × DB :=
  let s1 := if increment_views then (s.increment_view_count pid).2 else s
  (s1.get_post pid, s1)

/-- The tag check of BlogPostService.update_post (services.py line 159). -/
def tagsOkForUpdate (s : DB) (u : PostUpdateData) : Bool :=
  match u.tags with
  | none => true
  | some ts => TagService.validate_tag_ids s ts

/-- BlogPostService.update_post (services.py lines 143-166): validate the
supplied tags, drop null fields, delegate to the store. -/
def update_post (s : DB) (pid : Nat) (u : PostUpdateData) :
    Except SvcErr (Option PostRec) × DB :=
  if !(tagsOkForUpdate s u) then (.error .invalidTags, s)
  else
    let r := s.update_post pid u
    (.ok r.1, r.2)

/-- BlogPostService.delete_post (services.py lines 168-171). -/
def delete_post (s : DB) (pid : Nat) : Bool × DB := s.delete_post pid

/-- The summary record assembled for list views (models.py lines 136-145). -/
structure PostSummary where
  id : Nat
  title : Str
  author_id : Nat
  created_at : Nat
  published : Bool
  tags : List Nat
  view_count : Nat
  comment_count : Nat
deriving DecidableEq, Repr

/-- BlogPostService.get_posts_summary (services.py lines 178-200): every post
with its comment count attached. -/
def get_posts_summary (s : DB) (published_only : Bool) : List PostSummary :=
  (s.get_all_posts published_only).map (fun p =>
    ⟨p.id, p.title, p.author_id, p.created_at, p.published, p.tags,
     p.view_count, s.get_comment_count_for_post p.id⟩)

end BlogPostService

namespace CommentService

/-- CommentService.create_comment (services.py lines 231-254): the post is
checked first, then the author. -/
def create_comment (s : DB) (d : CommentCreateData) :
    Except SvcErr CommentRec × DB :=
  if (s.get_post d.post_id).isNone then (.error .postMissing, s)
  else if !(UserService.user_exists s d.author_id) then
    (.error .authorMissing, s)
  else
    let r := s.create_comment d
    (.ok r.1, r.2)

end CommentService

namespace BlogStatisticsService

/-- Comparator for sorted(..., reverse true) on view_count. -/
def viewDesc (a b : PostRec) : Bool := decide (b.view_count ≤ a.view_count)

/-- BlogStatisticsService.get_most_viewed_posts (services.py lines 296-301). -/
def get_most_viewed_posts (s : DB) (limit : Nat) : List PostRec :=
  ((s.get_all_posts false).mergeSort viewDesc).take limit

/-- Comparator for sorted(..., reverse true) on comment_count. -/
def commentDesc (a b : BlogPostService.PostSummary) : Bool :=
  decide (b.comment_count ≤ a.comment_count)

/-- BlogStatisticsService.get_most_commented_posts (services.py
lines 303-308). -/
def get_most_commented_posts (s : DB) (limit : Nat) :
    List BlogPostService.PostSummary :=
  ((BlogPostService.get_posts_summary s false).mergeSort commentDesc).take limit

end BlogStatisticsService

/-! ### Iterated reads with view increment, for the view-count property -/

/-- n successive calls of BlogPostService.get_post with increment_views set,
keeping only the evolving store state. -/
def iterGetInc (pid : Nat) : Nat → DB → DB
  | 0, s => s
  | n + 1, s => iterGetInc pid n (BlogPostService.get_post s pid true).2

/-! ### Reference-semantics model of the posts store

database.py stores each post as a dict whose tags entry holds a Python list
object, and every read path returns dict.copy(), a shallow copy (lines 141,
145, 159, 173, 180, 184, 201).  The shallow copy duplicates the scalar
fields but shares the tags list object with the stored dict.  RefDB models
exactly this object graph: list objects live in a heap addressed by Nat,
and a post record holds the address of its tags list. -/

structure PostObj where
  id : Nat
  title : Str
  content : Str
  author_id : Nat
  created_at : Nat
  updated_at : Option Nat
  published : Bool
  tagsRef : Nat
  view_count : Nat
deriving DecidableEq, Repr

structure RefDB where
  posts : List (Nat × PostObj)
  heap : List (Nat × List Nat)
  post_counter : Nat
  next_addr : Nat
  clock : Nat
deriving DecidableEq, Repr

/-- Dereference a list object. -/
def heapRead (h : List (Nat × List Nat)) (a : Nat) : List Nat :=
  (alookup h a).getD []

/-- In-place mutation of the list object at an address, e.g. a caller doing
an append on a list it reached through a returned post dict. -/
def heapWrite (h : List (Nat × List Nat)) (a : Nat) (l : List Nat) :
    List (Nat × List Nat) :=
  h.map (fun e => if e.1 = a then (a, l) else e)

/-- BlogDatabase.create_post in the object model: the stored dict holds the
tags list by reference, and the returned dict.copy() carries that same
reference. -/
def RefDB.create_post (s : RefDB) (title content : Str) (author_id : Nat)
    (published : Bool) (tags : List Nat) : PostObj × RefDB :=
  let addr := s.next_addr
  let pid := s.post_counter + 1
  let p : PostObj :=
    ⟨pid, title, content, author_id, s.clock, none, published, addr, 0⟩
  (p, { s with posts := s.posts ++ [(pid, p)],
               heap := s.heap ++ [(addr, tags)],
               post_counter := pid, next_addr := addr + 1,
               clock := s.clock + 1 })

/-- BlogDatabase.get_post in the object model: posts[id].copy() shares the
stored tags reference. -/
def RefDB.get_post (s : RefDB) (pid : Nat) : Option PostObj :=
  alookup s.posts pid

/-- A caller-side in-place write to the list object at an address. -/
def RefDB.mutateList (s : RefDB) (a : Nat) (l : List Nat) : RefDB :=
  { s with heap := heapWrite s.heap a l }

/-- What a later read observes as the tags of a post: the record returned by
get_post with its tags reference resolved through the current heap. -/
def RefDB.observedTags (s : RefDB) (pid : Nat) : Option (List Nat) :=
  (s.get_post pid).map (fun p => heapRead s.heap p.tagsRef)

def refDB0 : RefDB := ⟨[], [], 0, 0, 0⟩

/-- One post, id 1, whose tags list lives at heap address 0 with value [1]. -/
def refS1 : RefDB :=
  (RefDB.create_post refDB0 ("t".toList) ("c".toList) 1 false [1]).2

/-! ### Concrete store states used by the witnesses -/

def db0 : DB := ⟨[], [], [], [], 0, 0, 0, 0, 0⟩

def aliceData : UserCreateData := ⟨"alice".toList, "ae".toList, none⟩

def bobData : UserCreateData := ⟨"bob".toList, "be".toList, none⟩

/-- db0 with user alice, id 1 (clock 1 afterwards). -/
def dbA : DB := (UserService.create_user db0 aliceData).2

/-- dbA with tag Python, id 1. -/
def dbT : DB := (DB.create_tag dbA ("Python".toList)).2

def postInput : PostCreateData :=
  ⟨"Hello World".toList, "Body text".toList, 1, true, [1]⟩

/-- dbT with post id 1 by alice, created at time 1 (clock 2 afterwards). -/
def dbP : DB := (BlogPostService.create_post dbT postInput).2

/-- The stored record of post 1 in dbP. -/
def post1 : PostRec :=
  ⟨1, "Hello World".toList, "Body text".toList, 1, 1, none, true, [1], 0⟩

/-- dbP with a comment on post 1, id 1. -/
def dbC : DB := (CommentService.create_comment dbP ⟨1, 1, "Nice".toList⟩).2

/-- dbC with a second post, id 2, no tags. -/
def dbP2 : DB :=
  (BlogPostService.create_post dbC (mkPostCreate ("Second".toList) ("More".toList) 1)).2

/-- dbP2 with a comment on post 2, id 2. -/
def dbC2 : DB := (CommentService.create_comment dbP2 ⟨2, 1, "Other".toList⟩).2

/-- A partial update supplying only the title. -/
def u0 : PostUpdateData := ⟨some ("New title".toList), none, none, none⟩

def badPostInput : PostCreateData := ⟨"T".toList, "C".toList, 99, false, []⟩

def badCommentInput : CommentCreateData := ⟨99, 1, "x".toList⟩

end BlogApi

deriving instance DecidableEq for Except

namespace BlogApi

/-! ### Helper lemmas about association lists -/

theorem alookup_map_set {A : Type} (m : List (Nat × A)) (k : Nat) (v : A)
    (h : (alookup m k).isSome) :
    alookup (m.map (fun e => if e.1 = k then (k, v) else e)) k = some v := by
  induction m with
  | nil => simp [alookup] at h
  | cons e m ih =>
    by_cases he : e.1 = k
    · simp [alookup, he]
    · simp only [alookup, he, if_false] at h
      simp only [List.map_cons, he, if_false]
      simpa [alookup, he] using ih h

theorem alookup_filter_key {A : Type} (m : List (Nat × A)) (k : Nat) :
    alookup (m.filter (fun e => e.1 != k)) k = none := by
  induction m with
  | nil => rfl
  | cons e m ih =>
    simp only [List.filter_cons]
    by_cases he : e.1 = k
    · simp [he, ih]
    · by_cases hb : (e.1 != k) = true
      · simp [hb, alookup, he, ih]
      · simp [hb, ih]

theorem alookup_filter_snd {A : Type} (q : A → Bool) (m : List (Nat × A))
    (k : Nat) (v : A) (h : alookup m k = some v) (hv : q v = true) :
    alookup (m.filter (fun e => q e.2)) k = some v := by
  induction m with
  | nil => simp [alookup] at h
  | cons e m ih =>
    simp only [List.filter_cons]
    by_cases he : e.1 = k
    · simp only [alookup, he, if_true] at h
      have hq : q e.2 = true := by rw [Option.some_inj] at h; rw [h]; exact hv
      simp [hq, alookup, he]
      rw [Option.some_inj] at h
      exact h
    · simp only [alookup, he, if_false] at h
      by_cases hq : q e.2 = true
      · simp [hq, alookup, he, ih h]
      · simp [hq, ih h]

theorem valuesOf_filter {A : Type} (q : A → Bool) (m : List (Nat × A)) :
    valuesOf (m.filter (fun e => q e.2)) = (valuesOf m).filter q := by
  induction m with
  | nil => rfl
  | cons e m ih =>
    simp only [List.filter_cons, valuesOf, List.map_cons]
    by_cases hq : q e.2 = true
    · simpa [hq, valuesOf] using ih
    · simpa [hq, valuesOf] using ih

theorem alookup_isSome_of_eq_some {A : Type} {m : List (Nat × A)} {k : Nat}
    {v : A} (h : alookup m k = some v) : (alookup m k).isSome := by
  rw [h]; rfl

/-! ### Helper lemmas about filters on the comment collection -/

theorem filter_post_id_self (pid : Nat) (l : List CommentRec) :
    (l.filter (fun c => c.post_id != pid)).filter (fun c => c.post_id == pid)
      = [] := by
  rw [List.filter_filter]
  apply List.filter_eq_nil_iff.mpr
  intro c _
  by_cases h : c.post_id = pid <;> simp [h]

theorem filter_post_id_other (pid q : Nat) (hq : q ≠ pid)
    (l : List CommentRec) :
    (l.filter (fun c => c.post_id != pid)).filter (fun c => c.post_id == q)
      = l.filter (fun c => c.post_id == q) := by
  rw [List.filter_filter]
  apply List.filter_congr
  intro c _
  by_cases h : c.post_id = q
  · have : c.post_id ≠ pid := by rw [h]; exact hq
    simp [h, this, hq]
  · simp [h]

/-! ### Helper lemmas about username lookup -/

theorem get_user_by_username_none_iff (s : DB) (name : Str) :
    s.get_user_by_username name = none ↔
      ∀ u ∈ valuesOf s.users, u.username ≠ name := by
  unfold DB.get_user_by_username
  cases hf : s.users.find? (fun e => e.2.username == name) with
  | none =>
    rw [List.find?_eq_none] at hf
    simp only [true_iff]
    intro u hu
    obtain ⟨e, he, rfl⟩ := List.mem_map.mp hu
    have := hf e he
    simpa using this
  | some e =>
    have h1 := List.find?_some hf
    have h2 := List.mem_of_find?_eq_some hf
    simp only [reduceCtorEq, false_iff, not_forall]
    refine ⟨e.2, List.mem_map_of_mem _ h2, ?_⟩
    simpa using h1

theorem get_user_by_username_some (s : DB) (name : Str) (u : UserRec)
    (h : s.get_user_by_username name = some u) :
    u ∈ valuesOf s.users ∧ u.username = name := by
  unfold DB.get_user_by_username at h
  cases hf : s.users.find? (fun e => e.2.username == name) with
  | none => rw [hf] at h; cases h
  | some e =>
    rw [hf] at h
    rw [Option.some_inj] at h
    subst h
    have h1 := List.find?_some hf
    have h2 := List.mem_of_find?_eq_some hf
    exact ⟨List.mem_map_of_mem _ h2, by simpa using h1⟩

/-! ### Helper lemmas about tag validity -/

theorem validate_tag_ids_true_iff (s : DB) (ids : List Nat) :
    TagService.validate_tag_ids s ids = true ↔
      ∀ t ∈ ids, s.get_tag t ≠ none := by
  unfold TagService.validate_tag_ids
  rw [List.all_eq_true]
  constructor
  · intro h t ht
    exact Option.isSome_iff_ne_none.mp (h t ht)
  · intro h t ht
    exact Option.isSome_iff_ne_none.mpr (h t ht)

theorem validate_tag_ids_false_iff (s : DB) (ids : List Nat) :
    TagService.validate_tag_ids s ids = false ↔
      ∃ t ∈ ids, s.get_tag t = none := by
  rw [← Bool.not_eq_true, validate_tag_ids_true_iff]
  push_neg
  rfl

/-! ### Helper lemmas about the comparators and sorting -/

theorem createdDesc_trans (a b c : PostRec) (hab : createdDesc a b = true)
    (hbc : createdDesc b c = true) : createdDesc a c = true := by
  simp only [createdDesc, decide_eq_true_eq] at *
  omega

theorem createdDesc_total (a b : PostRec) :
    (createdDesc a b || createdDesc b a) = true := by
  simp only [createdDesc, Bool.or_eq_true, decide_eq_true_eq]
  omega

theorem createdAsc_trans (a b c : CommentRec) (hab : createdAsc a b = true)
    (hbc : createdAsc b c = true) : createdAsc a c = true := by
  simp only [createdAsc, decide_eq_true_eq] at *
  omega

theorem createdAsc_total (a b : CommentRec) :
    (createdAsc a b || createdAsc b a) = true := by
  simp only [createdAsc, Bool.or_eq_true, decide_eq_true_eq]
  omega

theorem viewDesc_trans (a b c : PostRec)
    (hab : BlogStatisticsService.viewDesc a b = true)
    (hbc : BlogStatisticsService.viewDesc b c = true) :
    BlogStatisticsService.viewDesc a c = true := by
  simp only [BlogStatisticsService.viewDesc, decide_eq_true_eq] at *
  omega

theorem viewDesc_total (a b : PostRec) :
    (BlogStatisticsService.viewDesc a b || BlogStatisticsService.viewDesc b a)
      = true := by
  simp only [BlogStatisticsService.viewDesc, Bool.or_eq_true,
    decide_eq_true_eq]
  omega

theorem commentDesc_trans (a b c : BlogPostService.PostSummary)
    (hab : BlogStatisticsService.commentDesc a b = true)
    (hbc : BlogStatisticsService.commentDesc b c = true) :
    BlogStatisticsService.commentDesc a c = true := by
  simp only [BlogStatisticsService.commentDesc, decide_eq_true_eq] at *
  omega

theorem commentDesc_total (a b : BlogPostService.PostSummary) :
    (BlogStatisticsService.commentDesc a b
        || BlogStatisticsService.commentDesc b a) = true := by
  simp only [BlogStatisticsService.commentDesc, Bool.or_eq_true,
    decide_eq_true_eq]
  omega

/-! ### Helper lemmas about substring matching -/

theorem containsSub_nil (h : Str) : containsSub h [] = true := by
  cases h with
  | nil => rfl
  | cons c t => simp [containsSub, isPre]

theorem matchesQuery_nil (p : PostRec) : matchesQuery [] p = true := by
  simp [matchesQuery, lowerStr, containsSub_nil]

/-! ### Helper lemma for view-count increments -/

theorem increment_existing (s : DB) (pid : Nat) (p : PostRec)
    (hp : s.get_post pid = some p) :
    (s.increment_view_count pid).2.get_post pid
      = some { p with view_count := p.view_count + 1 } := by
  unfold DB.increment_view_count
  unfold DB.get_post at hp
  rw [hp]
  unfold DB.get_post setPost
  exact alookup_map_set _ _ _ (alookup_isSome_of_eq_some hp)

/-! ### Claim theorems -/

/-- Claim C2: deleting an existing post returns true, removes the post,
removes exactly the comments whose post_id equals the deleted id, and leaves
every comment with a different post_id unchanged in the store. -/
theorem delete_post_cascades (s : DB) (pid : Nat) (p : PostRec)
    (hp : s.get_post pid = some p) :
    (s.delete_post pid).1 = true ∧
    (s.delete_post pid).2.get_post pid = none ∧
    (s.delete_post pid).2.get_comments_for_post pid = [] ∧
    (∀ q, q ≠ pid →
      (s.delete_post pid).2.get_comments_for_post q
        = s.get_comments_for_post q) ∧
    (∀ cid c, s.get_comment cid = some c → c.post_id ≠ pid →
      (s.delete_post pid).2.get_comment cid = some c) := by
  have hs : (alookup s.posts pid).isSome = true := alookup_isSome_of_eq_some hp
  unfold DB.delete_post
  simp only [hs, if_true]
  refine ⟨trivial, ?_, ?_, ?_, ?_⟩
  · exact alookup_filter_key s.posts pid
  · show ((valuesOf (s.comments.filter (fun e => e.2.post_id != pid))).filter
        (fun c => c.post_id == pid)).mergeSort createdAsc = []
    rw [valuesOf_filter (fun c => c.post_id != pid) s.comments,
      filter_post_id_self]
    simp
  · intro q hq
    show ((valuesOf (s.comments.filter (fun e => e.2.post_id != pid))).filter
        (fun c => c.post_id == q)).mergeSort createdAsc
      = s.get_comments_for_post q
    rw [valuesOf_filter (fun c => c.post_id != pid) s.comments,
      filter_post_id_other pid q hq]
    rfl
  · intro cid c hc hcp
    show alookup (s.comments.filter (fun e => e.2.post_id != pid)) cid = some c
    exact alookup_filter_snd (fun c2 => c2.post_id != pid) s.comments cid c hc
      (by simpa using hcp)

/-- Witness for C2 on a concrete store with two posts and one comment each:
deleting post 1 removes it and its comment and keeps post 2's comments. -/
theorem delete_post_cascades_witness :
    (DB.delete_post dbC2 1).1 = true ∧
    (DB.delete_post dbC2 1).2.get_post 1 = none ∧
    (DB.delete_post dbC2 1).2.get_comments_for_post 1 = [] ∧
    (DB.delete_post dbC2 1).2.get_comments_for_post 2
      = dbC2.get_comments_for_post 2 := by
  have h := delete_post_cascades dbC2 1 post1 (by decide)
  exact ⟨h.1, h.2.1, h.2.2.1, h.2.2.2.1 2 (by decide)⟩

/-- Claim C6: on an existing post, n reads with increment_views set raise the
stored view_count by exactly n, and a read without it leaves the state
untouched. -/
theorem get_post_view_count (s : DB) (pid : Nat) (p : PostRec) (n : Nat)
    (hp : s.get_post pid = some p) :
    (iterGetInc pid n s).get_post pid
      = some { p with view_count := p.view_count + n } ∧
    (BlogPostService.get_post s pid false).2 = s := by
  refine ⟨?_, rfl⟩
  induction n generalizing s p with
  | zero => exact hp
  | succ n ih =>
    have h2 := ih _ _ (increment_existing s pid p hp)
    have h3 : p.view_count + 1 + n = p.view_count + (n + 1) := by omega
    rw [← h3]
    exact h2

/-- Witness for C6: three counted reads of post 1 take its view_count from 0
to 3, and an uncounted read changes nothing. -/
theorem get_post_view_count_witness :
    (iterGetInc 1 3 dbP).get_post 1
      = some { post1 with view_count := post1.view_count + 3 } ∧
    (BlogPostService.get_post dbP 1 false).2 = dbP :=
  get_post_view_count dbP 1 post1 3 (by decide)

/-- Claim C3: a partial update of an existing post overwrites exactly the
non-null fields, never the id, and stamps updated_at with a time at least
the creation time; with only the title supplied, content, published and tags
are untouched. -/
theorem update_post_partial (s : DB) (pid : Nat) (p : PostRec)
    (u : PostUpdateData) (hp : s.get_post pid = some p)
    (hclock : p.created_at ≤ s.clock)
    (htags : BlogPostService.tagsOkForUpdate s u = true) :
    (BlogPostService.update_post s pid u).1
      = Except.ok (some (applyUpdate p u s.clock)) ∧
    (BlogPostService.update_post s pid u).2.get_post pid
      = some (applyUpdate p u s.clock) ∧
    (applyUpdate p u s.clock).id = p.id ∧
    (u.title = none → (applyUpdate p u s.clock).title = p.title) ∧
    (u.content = none → (applyUpdate p u s.clock).content = p.content) ∧
    (u.published = none →
      (applyUpdate p u s.clock).published = p.published) ∧
    (u.tags = none → (applyUpdate p u s.clock).tags = p.tags) ∧
    (∃ ts, (applyUpdate p u s.clock).updated_at = some ts ∧
      p.created_at ≤ ts) := by
  unfold BlogPostService.update_post
  simp only [htags, Bool.not_true, Bool.false_eq_true, if_false]
  unfold DB.update_post
  unfold DB.get_post at hp
  rw [hp]
  refine ⟨rfl, ?_, rfl, ?_, ?_, ?_, ?_, ⟨s.clock, rfl, hclock⟩⟩
  · show alookup (setPost s.posts pid (applyUpdate p u s.clock)) pid
      = some (applyUpdate p u s.clock)
    unfold setPost
    exact alookup_map_set _ _ _ (alookup_isSome_of_eq_some hp)
  · intro h; simp [applyUpdate, h]
  · intro h; simp [applyUpdate, h]
  · intro h; simp [applyUpdate, h]
  · intro h; simp [applyUpdate, h]

/-- Witness for C3: updating only the title of post 1 keeps its content,
published flag and tags, and the update succeeds. -/
theorem update_post_partial_witness :
    (BlogPostService.update_post dbP 1 u0).1
      = Except.ok (some (applyUpdate post1 u0 2)) ∧
    (applyUpdate post1 u0 2).content = post1.content ∧
    (applyUpdate post1 u0 2).published = post1.published ∧
    (applyUpdate post1 u0 2).tags = post1.tags := by
  have h := update_post_partial dbP 1 post1 u0 (by decide) (by decide)
    (by decide)
  exact ⟨h.1, h.2.2.2.2.1 (by decide), h.2.2.2.2.2.1 (by decide),
    h.2.2.2.2.2.2.1 (by decide)⟩

/-- Claim C8: the slugify examples from the spec, computed by the embedded
BlogDatabase._slugify. -/
theorem slugify_examples :
    slugify ("Web Development".toList) = "web-development".toList ∧
    slugify ("C++!!".toList) = "c".toList := by
  decide

/-- Claim C4: creating a user fails exactly when some existing user carries
the same username under exact comparison; otherwise it succeeds and the
username lookup afterwards returns the created user. -/
theorem create_user_conflict (s : DB) (d : UserCreateData) :
    ((∃ e, (UserService.create_user s d).1 = Except.error e) ↔
      ∃ u ∈ valuesOf s.users, u.username = d.username) ∧
    ((∀ u ∈ valuesOf s.users, u.username ≠ d.username) →
      (UserService.create_user s d).1 = Except.ok (DB.create_user s d).1 ∧
      (UserService.create_user s d).2.get_user_by_username d.username
        = some (DB.create_user s d).1 ∧
      (DB.create_user s d).1.username = d.username) := by
  unfold UserService.create_user
  cases hf : s.get_user_by_username d.username with
  | some u =>
    have h1 := get_user_by_username_some s d.username u hf
    constructor
    · exact iff_of_true ⟨.usernameExists, rfl⟩ ⟨u, h1.1, h1.2⟩
    · intro hall
      exact absurd h1.2 (hall u h1.1)
  | none =>
    have hnone := (get_user_by_username_none_iff s d.username).mp hf
    have hfind : s.users.find? (fun e => e.2.username == d.username)
        = none := by
      unfold DB.get_user_by_username at hf
      cases h2 : s.users.find? (fun e => e.2.username == d.username) with
      | none => rfl
      | some e => rw [h2] at hf; cases hf
    constructor
    · constructor
      · rintro ⟨e, he⟩; cases he
      · rintro ⟨u, hu, hname⟩; exact absurd hname (hnone u hu)
    · intro _
      refine ⟨rfl, ?_, rfl⟩
      show DB.get_user_by_username (DB.create_user s d).2 d.username
        = some (DB.create_user s d).1
      unfold DB.create_user DB.get_user_by_username
      rw [List.find?_append, hfind]
      simp [List.find?]

/-- Witness for C4: a fresh username in a store holding only alice succeeds
and is retrievable afterwards. -/
theorem create_user_conflict_witness :
    (UserService.create_user dbA bobData).1
      = Except.ok (DB.create_user dbA bobData).1 ∧
    (UserService.create_user dbA bobData).2.get_user_by_username
      ("bob".toList) = some (DB.create_user dbA bobData).1 := by
  have h := (create_user_conflict dbA bobData).2 (by decide)
  exact ⟨h.1, h.2.1⟩

/-- Claim C5: creating a post fails exactly when the author id or some
supplied tag id does not resolve; on success the created post has
view_count 0, updated_at null, and published as supplied. -/
theorem create_post_spec (s : DB) (d : PostCreateData) :
    ((∃ e, (BlogPostService.create_post s d).1 = Except.error e) ↔
      (s.get_user d.author_id = none ∨ ∃ t ∈ d.tags, s.get_tag t = none)) ∧
    (s.get_user d.author_id ≠ none → (∀ t ∈ d.tags, s.get_tag t ≠ none) →
      (BlogPostService.create_post s d).1
        = Except.ok (DB.create_post s d).1 ∧
      (DB.create_post s d).1.view_count = 0 ∧
      (DB.create_post s d).1.updated_at = none ∧
      (DB.create_post s d).1.published = d.published) := by
  unfold BlogPostService.create_post UserService.user_exists
  by_cases ha : (s.get_user d.author_id).isSome = true
  · have ha2 : s.get_user d.author_id ≠ none := Option.isSome_iff_ne_none.mp ha
    simp only [ha, Bool.not_true, Bool.false_eq_true, if_false]
    by_cases hv : TagService.validate_tag_ids s d.tags = true
    · have hv2 := (validate_tag_ids_true_iff s d.tags).mp hv
      simp only [hv, Bool.not_true, Bool.and_false, Bool.false_eq_true,
        if_false]
      constructor
      · constructor
        · rintro ⟨e, he⟩; cases he
        · rintro (h | ⟨t, ht, hnone⟩)
          · exact absurd h ha2
          · exact absurd hnone (hv2 t ht)
      · intro _ _
        exact ⟨trivial, rfl, rfl, rfl⟩
    · have hv3 : TagService.validate_tag_ids s d.tags = false :=
        Bool.eq_false_iff.mpr hv
      have hv4 := (validate_tag_ids_false_iff s d.tags).mp hv3
      have hne : d.tags.isEmpty = false := by
        obtain ⟨t, ht, _⟩ := hv4
        cases hl : d.tags with
        | nil => rw [hl] at ht; cases ht
        | cons x l => rfl
      simp only [hv3, hne, Bool.not_false, Bool.and_true, if_true]
      constructor
      · exact iff_of_true ⟨.invalidTags, rfl⟩ (Or.inr hv4)
      · intro _ hall
        obtain ⟨t, ht, hnone⟩ := hv4
        exact absurd hnone (hall t ht)
  · have ha3 : s.get_user d.author_id = none := by
      cases h : s.get_user d.author_id with
      | none => rfl
      | some u => rw [h] at ha; exact absurd rfl ha
    simp only [ha3, Option.isSome_none, Bool.not_false, if_true]
    constructor
    · exact iff_of_true ⟨.authorMissing, rfl⟩ (Or.inl trivial)
    · intro h _
      exact absurd rfl h

/-- Witness for C5: a post by the existing author 1 with the existing tag 1
is created with view_count 0, no update stamp, and the supplied published
flag. -/
theorem create_post_spec_witness :
    (BlogPostService.create_post dbT postInput).1
      = Except.ok (DB.create_post dbT postInput).1 ∧
    (DB.create_post dbT postInput).1.view_count = 0 ∧
    (DB.create_post dbT postInput).1.updated_at = none ∧
    (DB.create_post dbT postInput).1.published = postInput.published :=
  (create_post_spec dbT postInput).2 (by decide) (by decide)

/-- Claim C7: search returns exactly the posts whose title or content
contains the query case-insensitively, in descending creation order, and
the empty query matches every post. -/
theorem search_posts_spec (s : DB) (q : Str) :
    (∀ p, p ∈ s.search_posts q ↔
      p ∈ valuesOf s.posts ∧ matchesQuery q p = true) ∧
    List.Pairwise (fun a b => b.created_at ≤ a.created_at)
      (s.search_posts q) ∧
    (∀ p, p ∈ s.search_posts [] ↔ p ∈ valuesOf s.posts) := by
  refine ⟨?_, ?_, ?_⟩
  · intro p
    unfold DB.search_posts
    rw [List.mem_mergeSort, List.mem_filter]
  · unfold DB.search_posts
    have h := List.sorted_mergeSort createdDesc_trans createdDesc_total
      ((valuesOf s.posts).filter (matchesQuery q))
    exact h.imp (fun hab => by simpa [createdDesc] using hab)
  · intro p
    unfold DB.search_posts
    rw [List.mem_mergeSort, List.mem_filter]
    simp [matchesQuery_nil]

/-- Witness for C7: the membership characterization evaluated for post 1 and
a concrete query on a concrete store. -/
theorem search_posts_spec_witness :
    post1 ∈ DB.search_posts dbC2 ("hello".toList) ↔
      post1 ∈ valuesOf dbC2.posts ∧
        matchesQuery ("hello".toList) post1 = true :=
  (search_posts_spec dbC2 ("hello".toList)).1 post1

/-- Claim C9: both rankings return at most limit entries, sorted descending
by view_count respectively comment_count, drawn from the store's posts; the
sort is the same stable full resort on every call, so the result is a
function of the store state alone. -/
theorem ranking_bounds (s : DB) (limit : Nat) :
    (BlogStatisticsService.get_most_viewed_posts s limit).length ≤ limit ∧
    List.Pairwise (fun a b => b.view_count ≤ a.view_count)
      (BlogStatisticsService.get_most_viewed_posts s limit) ∧
    (∀ p, p ∈ BlogStatisticsService.get_most_viewed_posts s limit →
      p ∈ valuesOf s.posts) ∧
    (BlogStatisticsService.get_most_commented_posts s limit).length ≤ limit ∧
    List.Pairwise (fun a b => b.comment_count ≤ a.comment_count)
      (BlogStatisticsService.get_most_commented_posts s limit) := by
  have hall : s.get_all_posts false = (valuesOf s.posts).mergeSort createdDesc :=
    rfl
  refine ⟨List.length_take_le _ _, ?_, ?_, List.length_take_le _ _, ?_⟩
  · have h := List.sorted_mergeSort viewDesc_trans viewDesc_total
      (s.get_all_posts false)
    exact (List.Pairwise.sublist (List.take_sublist _ _) h).imp
      (fun hab => by simpa [BlogStatisticsService.viewDesc] using hab)
  · intro p hp
    have h1 : p ∈ (s.get_all_posts false).mergeSort
        BlogStatisticsService.viewDesc :=
      (List.take_sublist _ _).mem hp
    rw [List.mem_mergeSort, hall, List.mem_mergeSort] at h1
    exact h1
  · have h := List.sorted_mergeSort commentDesc_trans commentDesc_total
      (BlogPostService.get_posts_summary s false)
    exact (List.Pairwise.sublist (List.take_sublist _ _) h).imp
      (fun hab => by simpa [BlogStatisticsService.commentDesc] using hab)

/-- Witness for C9: the length bounds of both rankings evaluated on a
concrete store with two posts. -/
theorem ranking_bounds_witness :
    (BlogStatisticsService.get_most_viewed_posts dbC2 3).length ≤ 3 ∧
    (BlogStatisticsService.get_most_commented_posts dbC2 3).length ≤ 3 := by
  have h := ranking_bounds dbC2 3
  exact ⟨h.1, h.2.2.2.1⟩

/-- Claim C10: a create_post or create_comment call that fails its
referential checks returns the store exactly as it was: no entity inserted
and no counter advanced. -/
theorem failed_create_noop (s : DB) (d : PostCreateData)
    (c : CommentCreateData) :
    ((∃ e, (BlogPostService.create_post s d).1 = Except.error e) →
      (BlogPostService.create_post s d).2 = s) ∧
    ((∃ e, (CommentService.create_comment s c).1 = Except.error e) →
      (CommentService.create_comment s c).2 = s) := by
  constructor
  · rintro ⟨e, he⟩
    unfold BlogPostService.create_post at he ⊢
    by_cases h1 : UserService.user_exists s d.author_id = true
    · simp only [h1, Bool.not_true, Bool.false_eq_true, if_false] at he ⊢
      by_cases h2 : (!d.tags.isEmpty && !TagService.validate_tag_ids s d.tags)
          = true
      · simp [h2]
      · simp [h2] at he
    · have h1f : UserService.user_exists s d.author_id = false :=
        Bool.eq_false_iff.mpr h1
      simp [h1f]
  · rintro ⟨e, he⟩
    unfold CommentService.create_comment at he ⊢
    by_cases h1 : (s.get_post c.post_id).isNone = true
    · simp [h1]
    · have h1f : (s.get_post c.post_id).isNone = false :=
        Bool.eq_false_iff.mpr h1
      by_cases h2 : UserService.user_exists s c.author_id = true
      · simp [h1f, h2] at he
      · have h2f : UserService.user_exists s c.author_id = false :=
          Bool.eq_false_iff.mpr h2
        simp [h1f, h2f]

/-- Witness for C10: creating a post with the unknown author 99, and a
comment on the unknown post 99, both leave the concrete store untouched. -/
theorem failed_create_noop_witness :
    (BlogPostService.create_post dbT badPostInput).2 = dbT ∧
    (CommentService.create_comment dbT badCommentInput).2 = dbT := by
  have h := failed_create_noop dbT badPostInput badCommentInput
  exact ⟨h.1 ⟨.authorMissing, by decide⟩, h.2 ⟨.postMissing, by decide⟩⟩

/-- Counterexample to claim C1: in the object model of database.py, get_post
returns posts[id].copy(), a shallow copy whose tags entry is the same list
object as the stored one.  In the one-post store refS1, get_post 1 returns a
record carrying tags reference 0; the caller overwriting that list object
(appending 2 to it) changes what a later read of post 1 observes as its
tags, from [1] to [1, 2].  So the returned value is not an independent
defensive copy with respect to its nested tags list. -/
theorem shallow_copy_counterexample :
    RefDB.get_post refS1 1
      = some ⟨1, "t".toList, "c".toList, 1, 0, none, false, 0, 0⟩ ∧
    RefDB.observedTags refS1 1 = some [1] ∧
    RefDB.observedTags (RefDB.mutateList refS1 0 [1, 2]) 1 = some [1, 2] := by
  decide

/-- Claim C1 as amended: reads return shallow copies.  The top level of the
returned record is defensive - no caller-side write to any list object can
change the record a read returns - but the nested tags list is shared: a
caller writing through the tags reference of a returned post changes what
every later read observes as that post's tags. -/
theorem shallow_copy_amended (s : RefDB) (a : Nat) (l : List Nat)
    (pid : Nat) :
    (RefDB.mutateList s a l).get_post pid = s.get_post pid ∧
    (∀ p, s.get_post pid = some p → p.tagsRef = a →
      (alookup s.heap a).isSome = true →
      (RefDB.mutateList s a l).observedTags pid = some l) := by
  constructor
  · rfl
  · intro p hp ha hh
    unfold RefDB.observedTags
    have h1 : (RefDB.mutateList s a l).get_post pid = some p := hp
    rw [h1, Option.map_some', ha]
    show some ((alookup (heapWrite s.heap a l) a).getD []) = some l
    unfold heapWrite
    rw [alookup_map_set s.heap a l hh]
    rfl

/-- Witness for the amended C1 on the concrete one-post store. -/
theorem shallow_copy_amended_witness :
    (RefDB.mutateList refS1 0 [1, 2]).observedTags 1 = some [1, 2] :=
  (shallow_copy_amended refS1 0 [1, 2] 1).2
    ⟨1, "t".toList, "c".toList, 1, 0, none, false, 0, 0⟩
    (by decide) (by decide) (by decide)

end BlogApi
